import Mathlib

/-!
Shallow embedding of the ATM state machine from
`src/c1_state_machine/p3_atm.rs` (Krayt78/blockchain-from-scratch).

The Rust code is a pure transition function `next_state : Atm × Action → Atm`
over u64 cash, an authentication status, and a keystroke register.  Machine
integers (u64) are modelled as `Nat` with explicit wrap-around `% 2 ^ 64`
exactly where the Rust arithmetic can overflow: the release-mode semantics of
`u64` subtraction and of the digit fold.  (In debug builds the same
subtraction panics instead of wrapping; the theorems below point at the same
inputs either way.)
-/

namespace AtmModel

/-- Width of the machine integers used by the Rust code (`u64`). -/
def U64 : Nat := 2 ^ 64

/-- Wrapping u64 subtraction, the release-mode meaning of `a - b` on `u64`
operands (for `a b < U64`).  When `b ≤ a` it agrees with truncated `Nat`
subtraction; when `b > a` it wraps around. -/
def sub_u64 (a b : Nat) : Nat := (a + (U64 - b % U64)) % U64

/-- The keys on the ATM keypad (Rust `enum Key`). -/
inductive Key where
  | One
  | Two
  | Three
  | Four
  | Enter
deriving DecidableEq

/-- Something you can do to the ATM (Rust `enum Action`); the `SwipeCard`
payload is the u64 hash of the pin, modelled as `Nat`. -/
inductive Action where
  | SwipeCard (pin_hash : Nat)
  | PressKey (key : Key)
deriving DecidableEq

/-- The various states of authentication possible with the ATM
(Rust `enum Auth`). -/
inductive Auth where
  | Waiting
  | Authenticating (expected_hash : Nat)
  | Authenticated
deriving DecidableEq

/-- The ATM state (Rust `struct Atm`): cash reserve, authentication status,
and all the keys pressed since the last `Enter`. -/
structure Atm where
  cash_inside : Nat
  expected_pin_hash : Auth
  keystroke_register : List Key
deriving DecidableEq

/-- Rust helper `clone_and_add`: clone the vector and push one element. -/
def clone_and_add (vec : List Key) (element : Key) : List Key :=
  vec ++ [element]

/-- Numeric code of a key, used only by the modelled hash below. -/
def keyCode (k : Key) : Nat :=
  match k with
  | Key.One => 1
  | Key.Two => 2
  | Key.Three => 3
  | Key.Four => 4
  | Key.Enter => 5

/-- Modelled from the spec: the external hash collaborator `crate::hash`
(declared outside `src/`), "a pure function from an ordered sequence of
`Key` values to a fixed-width integer hash, assumed deterministic and used
only for equality comparison (no preimage resistance or cryptographic
strength required]); any deterministic injective-enough mapping suffices".
We use a concrete deterministic fold reduced into the u64 range. -/
def hashKeys (ks : List Key) : Nat :=
  (ks.foldl (fun acc k => acc * 31 + keyCode k) 5381) % U64

/-- One step of the withdrawal-amount fold from the `Auth::Authenticated`
branch of `next_state`: digit keys are base-10 digits, `Enter` is ignored;
the u64 arithmetic wraps. -/
def amountStep (acc : Nat) (key : Key) : Nat :=
  match key with
  | Key.One => (acc * 10 + 1) % U64
  | Key.Two => (acc * 10 + 2) % U64
  | Key.Three => (acc * 10 + 3) % U64
  | Key.Four => (acc * 10 + 4) % U64
  | Key.Enter => acc

/-- The folded withdrawal amount (`amount_keys.iter().fold(0, ...)`). -/
def withdraw_amount (keys : List Key) : Nat :=
  keys.foldl amountStep 0

/-- The ATM transition function, a direct embedding of the Rust
`next_state` (the `StateMachine` impl for `Atm`).  Branch order and the
per-digit repetition follow the source. -/
def next_state (starting_state : Atm) (t : Action) : Atm :=
  match t with
  | Action.SwipeCard pin_hash =>
      if starting_state.expected_pin_hash ≠ Auth.Waiting then
        starting_state
      else
        { cash_inside := starting_state.cash_inside
          expected_pin_hash := Auth.Authenticating pin_hash
          keystroke_register := [] }
  | Action.PressKey Key.Enter =>
      match starting_state.expected_pin_hash with
      | Auth.Authenticating expected_hash =>
          if expected_hash = hashKeys starting_state.keystroke_register then
            { cash_inside := sub_u64 starting_state.cash_inside 1
              expected_pin_hash := Auth.Authenticated
              keystroke_register := [] }
          else
            { cash_inside := starting_state.cash_inside
              expected_pin_hash := Auth.Waiting
              keystroke_register := [] }
      | Auth.Authenticated =>
          if withdraw_amount starting_state.keystroke_register >
              starting_state.cash_inside then
            { cash_inside := starting_state.cash_inside
              expected_pin_hash := Auth.Waiting
              keystroke_register := [] }
          else
            { cash_inside :=
                sub_u64 starting_state.cash_inside
                  (withdraw_amount starting_state.keystroke_register)
              expected_pin_hash := Auth.Waiting
              keystroke_register := [] }
      | Auth.Waiting =>
          { cash_inside := starting_state.cash_inside
            expected_pin_hash := Auth.Waiting
            keystroke_register := [] }
  | Action.PressKey Key.One =>
      { cash_inside := starting_state.cash_inside
        expected_pin_hash :=
          match starting_state.expected_pin_hash with
          | Auth.Authenticating pin => Auth.Authenticating pin
          | _ => Auth.Waiting
        keystroke_register :=
          clone_and_add starting_state.keystroke_register Key.One }
  | Action.PressKey Key.Two =>
      { cash_inside := starting_state.cash_inside
        expected_pin_hash :=
          match starting_state.expected_pin_hash with
          | Auth.Authenticating pin => Auth.Authenticating pin
          | _ => Auth.Waiting
        keystroke_register :=
          clone_and_add starting_state.keystroke_register Key.Two }
  | Action.PressKey Key.Three =>
      { cash_inside := starting_state.cash_inside
        expected_pin_hash :=
          match starting_state.expected_pin_hash with
          | Auth.Authenticating pin => Auth.Authenticating pin
          | _ => Auth.Waiting
        keystroke_register :=
          clone_and_add starting_state.keystroke_register Key.Three }
  | Action.PressKey Key.Four =>
      { cash_inside := starting_state.cash_inside
        expected_pin_hash :=
          match starting_state.expected_pin_hash with
          | Auth.Authenticating pin => Auth.Authenticating pin
          | _ => Auth.Waiting
        keystroke_register :=
          clone_and_add starting_state.keystroke_register Key.Four }

/-- The initial shape of an ATM value: an initial cash reserve with
`Waiting` authentication and an empty register. -/
def initial (cash : Nat) : Atm :=
  { cash_inside := cash
    expected_pin_hash := Auth.Waiting
    keystroke_register := [] }

/-- Wrapping subtraction agrees with truncated subtraction on in-range
operands with no underflow. -/
theorem sub_u64_eq_sub (a b : Nat) (hb : b ≤ a) (ha : a < U64) :
    sub_u64 a b = a - b := by
  have hbU : b < U64 := lt_of_le_of_lt hb ha
  have hbm : b % U64 = b := Nat.mod_eq_of_lt hbU
  unfold sub_u64
  rw [hbm]
  have h1 : a + (U64 - b) = (a - b) + U64 := by omega
  rw [h1, Nat.add_mod_right]
  exact Nat.mod_eq_of_lt (by omega)

end AtmModel

namespace AtmModel

/-- C1: cash conservation fails on a reachable state.  From the initial
state with `cash_inside = 0`, swiping a card whose hash is the hash of the
empty register and then pressing `Enter` passes the PIN check, and the
unguarded u64 debit `cash_inside - 1` wraps: the resulting `cash_inside` is
`2 ^ 64 - 1`, a strict increase (in a debug build the same subtraction
panics instead).  The claim says `cash_inside` never increases. -/
theorem c1_cash_increases_on_reachable_state :
    (next_state (next_state (initial 0) (Action.SwipeCard (hashKeys [])))
        (Action.PressKey Key.Enter)).cash_inside = U64 - 1 ∧
    (initial 0).cash_inside <
      (next_state (next_state (initial 0) (Action.SwipeCard (hashKeys [])))
        (Action.PressKey Key.Enter)).cash_inside := by
  decide

/-- C2: the transition is not panic-free.  At the state with
`cash_inside = 0`, `auth = Authenticating (hashKeys [])` and an empty
register, a correct-PIN `Enter` press performs the u64 debit `0 - 1`, which
underflows: release builds wrap to `2 ^ 64 - 1` (shown here), debug builds
panic.  The claim says the debit never underflows. -/
theorem c2_successful_auth_debit_underflows :
    next_state { cash_inside := 0
                 expected_pin_hash := Auth.Authenticating (hashKeys [])
                 keystroke_register := [] } (Action.PressKey Key.Enter) =
      { cash_inside := U64 - 1
        expected_pin_hash := Auth.Authenticated
        keystroke_register := [] } := by
  decide

/-- C3: a digit press while `Authenticated` does not keep the session
authenticated.  The catch-all arm of the per-digit `match` maps
`Authenticated` to `Waiting` (while still appending the key), so the code
contradicts the claim and the repository's own test
`sm_3_enter_single_digit_of_withdraw_amount`. -/
theorem c3_digit_while_authenticated_demotes :
    next_state { cash_inside := 10
                 expected_pin_hash := Auth.Authenticated
                 keystroke_register := [] } (Action.PressKey Key.One) =
      { cash_inside := 10
        expected_pin_hash := Auth.Waiting
        keystroke_register := [Key.One] } := by
  decide

/-- C4: a digit press while `Waiting` is not register-preserving-empty:
`clone_and_add` appends the pressed key to the register unconditionally, so
the result register is `[Key.One]`, not `[]`, contradicting the claim and
the repository's own test `sm_3_press_key_before_card_swipe`. -/
theorem c4_digit_while_waiting_accumulates :
    next_state { cash_inside := 10
                 expected_pin_hash := Auth.Waiting
                 keystroke_register := [] } (Action.PressKey Key.One) =
      { cash_inside := 10
        expected_pin_hash := Auth.Waiting
        keystroke_register := [Key.One] } := by
  decide

/-- C5 counterexample: at `cash_inside = 0` with a correct PIN, the
resulting `cash_inside` is not `0 - 1` (the wrapped u64 value `2 ^ 64 - 1`
is produced instead), so the claim as stated fails at this state. -/
theorem c5_correct_pin_cex :
    (next_state { cash_inside := 0
                  expected_pin_hash := Auth.Authenticating (hashKeys [])
                  keystroke_register := [] }
        (Action.PressKey Key.Enter)).cash_inside ≠ 0 - 1 := by
  decide

/-- C5 (amended): for every state whose `cash_inside` is a u64 value of at
least 1, if `auth = Authenticating h` and the register hashes to `h`, then
pressing `Enter` debits exactly 1, sets `auth = Authenticated` and clears
the register. -/
theorem c5_correct_pin_debits_one (s : Atm) (h : Nat)
    (hauth : s.expected_pin_hash = Auth.Authenticating h)
    (hh : hashKeys s.keystroke_register = h)
    (h1 : 1 ≤ s.cash_inside) (h2 : s.cash_inside < U64) :
    next_state s (Action.PressKey Key.Enter) =
      { cash_inside := s.cash_inside - 1
        expected_pin_hash := Auth.Authenticated
        keystroke_register := [] } := by
  obtain ⟨cash, auth, reg⟩ := s
  change auth = Auth.Authenticating h at hauth
  change hashKeys reg = h at hh
  subst hauth
  subst hh
  simp only [next_state, if_true]
  rw [sub_u64_eq_sub cash 1 h1 h2]

/-- C5 witness: a concrete authenticated-PIN press debiting 1 from 10. -/
theorem c5_correct_pin_debits_one_witness :
    next_state { cash_inside := 10
                 expected_pin_hash := Auth.Authenticating (hashKeys [Key.One])
                 keystroke_register := [Key.One] }
        (Action.PressKey Key.Enter) =
      { cash_inside := 10 - 1
        expected_pin_hash := Auth.Authenticated
        keystroke_register := [] } :=
  c5_correct_pin_debits_one
    { cash_inside := 10
      expected_pin_hash := Auth.Authenticating (hashKeys [Key.One])
      keystroke_register := [Key.One] }
    (hashKeys [Key.One]) rfl rfl (by decide) (by decide)

/-- C6: wrong PIN is atomic on cash: if `auth = Authenticating h` and the
register does not hash to `h`, pressing `Enter` leaves `cash_inside`
unchanged, resets `auth` to `Waiting` and clears the register. -/
theorem c6_wrong_pin_resets (s : Atm) (h : Nat)
    (hauth : s.expected_pin_hash = Auth.Authenticating h)
    (hh : hashKeys s.keystroke_register ≠ h) :
    next_state s (Action.PressKey Key.Enter) =
      { cash_inside := s.cash_inside
        expected_pin_hash := Auth.Waiting
        keystroke_register := [] } := by
  obtain ⟨cash, auth, reg⟩ := s
  change auth = Auth.Authenticating h at hauth
  change hashKeys reg ≠ h at hh
  subst hauth
  simp only [next_state]
  rw [if_neg fun e => hh e.symm]

/-- C6 witness: a concrete wrong-PIN press. -/
theorem c6_wrong_pin_resets_witness :
    next_state { cash_inside := 10
                 expected_pin_hash := Auth.Authenticating 0
                 keystroke_register := [Key.Three] }
        (Action.PressKey Key.Enter) =
      { cash_inside := 10
        expected_pin_hash := Auth.Waiting
        keystroke_register := [] } :=
  c6_wrong_pin_resets
    { cash_inside := 10
      expected_pin_hash := Auth.Authenticating 0
      keystroke_register := [Key.Three] }
    0 rfl (by decide)

end AtmModel

namespace AtmModel

/-- C7: withdrawal.  While `Authenticated`, pressing `Enter` folds the
register into an amount (digits base-10, `Enter` ignored, u64 arithmetic);
if the amount exceeds `cash_inside` the request is rejected with cash
unchanged, otherwise the amount (possibly 0) is debited; either way the
session resets to `Waiting` with an empty register. -/
theorem c7_withdrawal (s : Atm)
    (hauth : s.expected_pin_hash = Auth.Authenticated)
    (hc : s.cash_inside < U64) :
    next_state s (Action.PressKey Key.Enter) =
      if withdraw_amount s.keystroke_register > s.cash_inside then
        { cash_inside := s.cash_inside
          expected_pin_hash := Auth.Waiting
          keystroke_register := [] }
      else
        { cash_inside := s.cash_inside - withdraw_amount s.keystroke_register
          expected_pin_hash := Auth.Waiting
          keystroke_register := [] } := by
  obtain ⟨cash, auth, reg⟩ := s
  change auth = Auth.Authenticated at hauth
  change cash < U64 at hc
  subst hauth
  simp only [next_state]
  by_cases hgt : withdraw_amount reg > cash
  · rw [if_pos hgt, if_pos hgt]
  · rw [if_neg hgt, if_neg hgt,
      sub_u64_eq_sub cash (withdraw_amount reg) (Nat.le_of_not_lt hgt) hc]

/-- C7 witness: withdrawing 1 from 10 leaves 9, `Waiting`, empty register. -/
theorem c7_withdrawal_witness :
    next_state { cash_inside := 10
                 expected_pin_hash := Auth.Authenticated
                 keystroke_register := [Key.One] }
        (Action.PressKey Key.Enter) =
      if withdraw_amount [Key.One] > 10 then
        { cash_inside := 10
          expected_pin_hash := Auth.Waiting
          keystroke_register := [] }
      else
        { cash_inside := 10 - withdraw_amount [Key.One]
          expected_pin_hash := Auth.Waiting
          keystroke_register := [] } :=
  c7_withdrawal
    { cash_inside := 10
      expected_pin_hash := Auth.Authenticated
      keystroke_register := [Key.One] }
    rfl (by decide)

/-- C8: a swipe while a session is in progress is the identity: for every
state whose `auth` is not `Waiting` and every hash, `next_state` returns
the state itself unchanged. -/
theorem c8_swipe_ignored_mid_session (s : Atm) (h : Nat)
    (hne : s.expected_pin_hash ≠ Auth.Waiting) :
    next_state s (Action.SwipeCard h) = s := by
  simp only [next_state]
  rw [if_pos hne]

/-- C8 witness: a swipe while `Authenticated` changes nothing. -/
theorem c8_swipe_ignored_mid_session_witness :
    next_state { cash_inside := 10
                 expected_pin_hash := Auth.Authenticated
                 keystroke_register := [] } (Action.SwipeCard 1234) =
      { cash_inside := 10
        expected_pin_hash := Auth.Authenticated
        keystroke_register := [] } :=
  c8_swipe_ignored_mid_session
    { cash_inside := 10
      expected_pin_hash := Auth.Authenticated
      keystroke_register := [] }
    1234 (by decide)

/-- C9: a non-`Enter` digit press while `Authenticating h` appends the key
to the register and preserves both the expected hash and `cash_inside`. -/
theorem c9_digit_while_authenticating (s : Atm) (h : Nat) (k : Key)
    (hauth : s.expected_pin_hash = Auth.Authenticating h)
    (hk : k ≠ Key.Enter) :
    next_state s (Action.PressKey k) =
      { cash_inside := s.cash_inside
        expected_pin_hash := Auth.Authenticating h
        keystroke_register := s.keystroke_register ++ [k] } := by
  obtain ⟨cash, auth, reg⟩ := s
  change auth = Auth.Authenticating h at hauth
  subst hauth
  cases k with
  | Enter => exact absurd rfl hk
  | One => simp [next_state, clone_and_add]
  | Two => simp [next_state, clone_and_add]
  | Three => simp [next_state, clone_and_add]
  | Four => simp [next_state, clone_and_add]

/-- C9 witness: pressing `Two` after `One` while authenticating. -/
theorem c9_digit_while_authenticating_witness :
    next_state { cash_inside := 10
                 expected_pin_hash := Auth.Authenticating 1234
                 keystroke_register := [Key.One] }
        (Action.PressKey Key.Two) =
      { cash_inside := 10
        expected_pin_hash := Auth.Authenticating 1234
        keystroke_register := [Key.One] ++ [Key.Two] } :=
  c9_digit_while_authenticating
    { cash_inside := 10
      expected_pin_hash := Auth.Authenticating 1234
      keystroke_register := [Key.One] }
    1234 Key.Two rfl (by decide)

/-- C10: a state becomes `Authenticated` only through a verified PIN: if
the state was not already `Authenticated` and the successor is, then the
state was `Authenticating h` for some `h`, the action was an `Enter`
press, and the register hashes to `h`. -/
theorem c10_authenticated_only_via_pin (s : Atm) (a : Action)
    (hpre : s.expected_pin_hash ≠ Auth.Authenticated)
    (hpost : (next_state s a).expected_pin_hash = Auth.Authenticated) :
    ∃ h, s.expected_pin_hash = Auth.Authenticating h ∧
      a = Action.PressKey Key.Enter ∧ hashKeys s.keystroke_register = h := by
  obtain ⟨cash, auth, reg⟩ := s
  cases a with
  | SwipeCard ph =>
      cases auth with
      | Waiting => simp [next_state] at hpost
      | Authenticating h0 => simp [next_state] at hpost
      | Authenticated => exact absurd rfl hpre
  | PressKey k =>
      cases k with
      | Enter =>
          cases auth with
          | Waiting => simp [next_state] at hpost
          | Authenticated => exact absurd rfl hpre
          | Authenticating h0 =>
              by_cases heq : h0 = hashKeys reg
              · exact ⟨h0, rfl, rfl, heq.symm⟩
              · simp [next_state, heq] at hpost
      | One =>
          cases auth <;> simp [next_state] at hpost
      | Two =>
          cases auth <;> simp [next_state] at hpost
      | Three =>
          cases auth <;> simp [next_state] at hpost
      | Four =>
          cases auth <;> simp [next_state] at hpost

/-- C10 witness: a concrete correct-PIN `Enter` press, the only way to
reach `Authenticated`. -/
theorem c10_authenticated_only_via_pin_witness :
    ∃ h, ({ cash_inside := 10
            expected_pin_hash := Auth.Authenticating (hashKeys [Key.One, Key.Two])
            keystroke_register := [Key.One, Key.Two] } : Atm).expected_pin_hash =
        Auth.Authenticating h ∧
      Action.PressKey Key.Enter = Action.PressKey Key.Enter ∧
      hashKeys [Key.One, Key.Two] = h :=
  c10_authenticated_only_via_pin
    { cash_inside := 10
      expected_pin_hash := Auth.Authenticating (hashKeys [Key.One, Key.Two])
      keystroke_register := [Key.One, Key.Two] }
    (Action.PressKey Key.Enter) (by decide) (by decide)

end AtmModel
